import Mathlib

/-!
Verification of the ThreeFold Connect authentication broker
(`src/auth-provider/synapse_tf_connect.py`, class `TFConnectAuthProvider`).

Shallow embedding conventions:
* Python dicts become functions `String → Option _`.
* `time.time()` becomes an explicit `now : Int` argument (seconds).
* The Redis client is `Option` of a keyspace: `none` models the primary
  cache backend being unavailable (connect failure at startup), in which
  case the source sets `self.redis_client = None`.
* `hashlib.sha256(...).hexdigest()` is modelled by an abstract digest
  function carried in the configuration record.
* Python truthiness of an optional string (`if not tf_token`) is the
  predicate `pyTruthy`: present and non-empty.
* Raised `LoginError(code, _, errcode)` values become the
  `CheckAuthResult.loginError code errcode` constructor; a Python `None`
  return from `check_auth` becomes `CheckAuthResult.noneResult`.
* Calls the orchestrator makes to collaborators are recorded in an event
  trace so that claims of the form "no verifier is invoked" are statable.
-/

/-- Identity claims returned by the TF Connect IdP (`user_info` dict in the
source). Only the four keys the broker reads are modelled; absent keys are
`none`. -/
structure UserInfo where
  doubleName : Option String
  username : Option String
  name : Option String
  email : Option String
deriving DecidableEq, Repr

/-- A pending session record as read by `_verify_session`: the source uses
`session_data.get('created_at', 0)` and `session_data.get('user_info')`, so
both keys may be absent. -/
structure SessionData where
  created_at : Option Int
  user_info : Option UserInfo
deriving DecidableEq, Repr

/-- Entry of the in-process user cache (`cache_data` in `_cache_user_info`). -/
structure UserCacheEntry where
  user_info : UserInfo
  cached_at : Int
deriving DecidableEq, Repr

/-- A local Matrix account as created by `_ensure_user_exists` through the
host account handler (`register_user`). -/
structure Account where
  localpart : String
  displayname : String
  emails : List String
  has_password : Bool
deriving DecidableEq, Repr

/-- Typed payloads stored in the Redis keyspace (the source stores JSON
strings under prefixed keys; the prefixes keep the namespaces disjoint). -/
inductive RVal where
  | sess (sd : SessionData)
  | tok (ui : UserInfo)
  | usr (entry : UserCacheEntry)
deriving DecidableEq, Repr

/-- The Redis keyspace: key to payload and absolute expiry time (`setex`
stores with a TTL; an expired key reads as absent). -/
def RedisDB : Type := String → Option (RVal × Int)

/-- Mutable state of `TFConnectAuthProvider`: the optional Redis client and
the in-process dictionaries `pending_sessions`, `rate_limit_cache`,
`user_cache`, plus the host's account store reached through
`account_handler`. -/
structure BrokerState where
  redis : Option RedisDB
  pending_sessions : String → Option SessionData
  rate_limit_cache : String → Option (List Int)
  user_cache : String → Option UserCacheEntry
  accounts : String → Option Account

/-- Configuration values read from `tf_config` (with the source's
defaults), plus the abstract one-way digest standing for sha256-hex. -/
structure Config where
  session_timeout : Int
  max_login_attempts : Nat
  rate_limit_window : Int
  user_cache_ttl : Int
  token_cache_ttl : Int
  allowed_domains : List String
  server_name : String
  digest : String → String

/-- Python truthiness of `login_dict.get(k)`: the value exists and is a
non-empty string. -/
def pyTruthy (o : Option String) : Bool :=
  match o with
  | none => false
  | some s => s ≠ ""

/-- Python `s.replace(old, new)` for single-character patterns: a per-character
substitution. -/
def pyReplaceChar (s : String) (old new : Char) : String :=
  ⟨s.data.map (fun c => if c = old then new else c)⟩

/-- Python `s.lower()`. -/
def pyLower (s : String) : String :=
  ⟨s.data.map Char.toLower⟩

/-- The characters after the last `@` of a string, the whole string when it
has no `@`: Python `s.split('@')[-1]`. -/
def afterLastAt (l : List Char) : List Char :=
  (l.reverse.takeWhile (fun c => c ≠ '@')).reverse

/-- Python `email.split('@')[-1].lower()` from `_is_user_allowed`. -/
def emailDomain (email : String) : String :=
  pyLower ⟨afterLastAt email.data⟩

/-- `TFConnectAuthProvider._is_user_allowed`. -/
def is_user_allowed (allowed_domains : List String) (user_info : UserInfo) : Bool :=
  if allowed_domains.isEmpty then true
  else
    let email := user_info.email.getD ""
    if email = "" then false
    else allowed_domains.contains (emailDomain email)

/-- `TFConnectAuthProvider._map_tf_user_to_matrix`: fallback chain
`doubleName`, `username`, literal `'unknown'`; then replace `.` and `@`
by `_`, lowercase, and build the Matrix id. -/
def map_tf_user_to_matrix (user_info : UserInfo) (server_name : String) : String :=
  let username := user_info.doubleName.getD (user_info.username.getD "unknown")
  let clean_username := pyLower (pyReplaceChar (pyReplaceChar username '.' '_') '@' '_')
  "@" ++ clean_username ++ ":" ++ server_name

/-- Account-id derivation following the spec sentence verbatim: subject
name (the IdP double name) if present, else a generic fallback label, then
the same substitution and lowercasing. Used only to compare against the
source's `map_tf_user_to_matrix`. -/
def to_local_account_id_spec (user_info : UserInfo) (server_name : String) : String :=
  let base := user_info.doubleName.getD "unknown"
  "@" ++ pyLower (pyReplaceChar (pyReplaceChar base '.' '_') '@' '_') ++ ":" ++ server_name

/-- Amended account-id derivation: the source's three-step fallback chain
(double name, then username claim, then the generic label), written as a
single per-character substitution pass to state the substitution rule
independently of the source's two `replace` calls. -/
def to_local_account_id_amended (user_info : UserInfo) (server_name : String) : String :=
  let base := user_info.doubleName.getD (user_info.username.getD "unknown")
  let cleaned : String := ⟨base.data.map (fun c => if c = '.' ∨ c = '@' then '_' else c)⟩
  "@" ++ pyLower cleaned ++ ":" ++ server_name

/-- Python `user_id.split(':')[0][1:]` from `_ensure_user_exists`. -/
def localpartOf (user_id : String) : String :=
  ⟨(user_id.data.takeWhile (fun c => c ≠ ':')).drop 1⟩

/-- Display-name fallback chain `user_info.get('name',
user_info.get('doubleName', 'Unknown'))`. -/
def displaynameOf (user_info : UserInfo) : String :=
  user_info.name.getD (user_info.doubleName.getD "Unknown")

/-- Email list `[user_info.get('email')] if user_info.get('email') else []`. -/
def emailsOf (user_info : UserInfo) : List String :=
  if pyTruthy user_info.email then [user_info.email.getD ""] else []

/-- `TFConnectAuthProvider._ensure_user_exists`: create the account when it
does not exist (no password), otherwise update only the display name. The
returned flag records whether a creation happened. Host-store failures are
out of scope of the claims settled here. -/
def ensure_user_exists (accounts : String → Option Account) (user_id : String)
    (user_info : UserInfo) : (String → Option Account) × Bool :=
  match accounts user_id with
  | none =>
    (fun k => if k = user_id then
        some ⟨localpartOf user_id, displaynameOf user_info, emailsOf user_info, false⟩
      else accounts k, true)
  | some acc =>
    (fun k => if k = user_id then some { acc with displayname := displaynameOf user_info }
      else accounts k, false)

/-- `TFConnectAuthProvider._check_rate_limit`: rebuild the cache keeping only
clients whose last attempt is within the window (the source's dict
comprehension over `attempts[-1]`; entries are never empty since only
`_record_failed_attempt` adds them), then count the client's recent attempts.
Returns the allow decision and the state with the pruned cache stored. -/
def check_rate_limit (cfg : Config) (now : Int) (s : BrokerState)
    (client_ip : String) : Bool × BrokerState :=
  let pruned : String → Option (List Int) := fun ip =>
    match s.rate_limit_cache ip with
    | some atts =>
      match atts.getLast? with
      | some t => if now - t < cfg.rate_limit_window then some atts else none
      | none => none
    | none => none
  let attempts := (pruned client_ip).getD []
  let recent := attempts.filter (fun t => now - t < cfg.rate_limit_window)
  (decide (recent.length < cfg.max_login_attempts),
   { s with rate_limit_cache := pruned })

/-- `TFConnectAuthProvider._record_failed_attempt`: append the current time
to the client's attempt list, creating it when absent. -/
def record_failed_attempt (now : Int) (s : BrokerState) (client_ip : String) : BrokerState :=
  let old := (s.rate_limit_cache client_ip).getD []
  { s with rate_limit_cache := fun ip =>
      if ip = client_ip then some (old ++ [now]) else s.rate_limit_cache ip }

/-- `TFConnectAuthProvider._get_session`: with Redis available read only the
Redis key (an absent key returns absent without consulting memory); with
Redis unavailable read `pending_sessions`. -/
def get_session (now : Int) (s : BrokerState) (session_id : String) : Option SessionData :=
  match s.redis with
  | some db =>
    match db ("session:" ++ session_id) with
    | some (RVal.sess sd, expiry) => if now < expiry then some sd else none
    | some _ => none
    | none => none
  | none => s.pending_sessions session_id

/-- `TFConnectAuthProvider._remove_session`: delete the Redis key when Redis
is available, and always pop the in-memory entry. -/
def remove_session (s : BrokerState) (session_id : String) : BrokerState :=
  let s1 : BrokerState :=
    match s.redis with
    | some db =>
      { s with redis := some (fun k => if k = "session:" ++ session_id then none else db k) }
    | none => s
  { s1 with pending_sessions := fun k =>
      if k = session_id then none else s1.pending_sessions k }

/-- `TFConnectAuthProvider._verify_session`: absent session yields absent;
an expired session is removed and yields absent; otherwise the attached
identity (possibly still absent) is returned with the state unchanged. -/
def verify_session (cfg : Config) (now : Int) (s : BrokerState)
    (session_id : String) : Option UserInfo × BrokerState :=
  match get_session now s session_id with
  | none => (none, s)
  | some sd =>
    if cfg.session_timeout < now - sd.created_at.getD 0 then
      (none, remove_session s session_id)
    else
      (sd.user_info, s)

/-- `TFConnectAuthProvider._get_cached_token`: with Redis available read the
digest-keyed token entry; with Redis unavailable there is no fallback read
and the result is always absent. -/
def get_cached_token (cfg : Config) (now : Int) (s : BrokerState)
    (token : String) : Option UserInfo :=
  match s.redis with
  | some db =>
    match db ("token:" ++ cfg.digest token) with
    | some (RVal.tok ui, expiry) => if now < expiry then some ui else none
    | some _ => none
    | none => none
  | none => none

/-- `TFConnectAuthProvider._cache_token`: with Redis available `setex` the
digest-keyed entry with `token_cache_ttl`; with Redis unavailable the write
is a no-op (the source has no in-memory branch here). -/
def cache_token (cfg : Config) (now : Int) (s : BrokerState) (token : String)
    (user_info : UserInfo) : BrokerState :=
  match s.redis with
  | some db =>
    { s with redis := some (fun k =>
        if k = "token:" ++ cfg.digest token then
          some (RVal.tok user_info, now + cfg.token_cache_ttl)
        else db k) }
  | none => s

/-- `TFConnectAuthProvider._cache_user_info`: with Redis available `setex`
under the prefixed key with `user_cache_ttl`; with Redis unavailable write
the in-process `user_cache` dict keyed by the bare user id. -/
def cache_user_info (cfg : Config) (now : Int) (s : BrokerState) (user_id : String)
    (user_info : UserInfo) : BrokerState :=
  match s.redis with
  | some db =>
    { s with redis := some (fun k =>
        if k = "user:" ++ user_id then
          some (RVal.usr ⟨user_info, now⟩, now + cfg.user_cache_ttl)
        else db k) }
  | none =>
    { s with user_cache := fun k =>
        if k = user_id then some ⟨user_info, now⟩ else s.user_cache k }

/-- Outcome of the single `requests.get` to the IdP in `_verify_tf_token`:
an HTTP response with a status and a parse outcome for its JSON body
(`none` models a body whose parsing raises), or a network error
(`requests.RequestException`). -/
inductive HttpOutcome where
  | ok (status : Nat) (body : Option UserInfo)
  | netError
deriving DecidableEq, Repr

/-- `TFConnectAuthProvider._verify_tf_token`: cache hit returns immediately;
otherwise status 200 with a parsed body is cached and returned, and a 200
with an unparsable body, a 401, any other status, or a network error all
reduce to absent — every branch returns, nothing escapes the function. -/
def verify_tf_token (cfg : Config) (now : Int) (s : BrokerState) (token : String)
    (resp : HttpOutcome) : Option UserInfo × BrokerState :=
  match get_cached_token cfg now s token with
  | some cached_user => (some cached_user, s)
  | none =>
    match resp with
    | HttpOutcome.ok status body =>
      if status = 200 then
        match body with
        | some user_info => (some user_info, cache_token cfg now s token user_info)
        | none => (none, s)
      else (none, s)
    | HttpOutcome.netError => (none, s)

/-- `get_supported_login_types`: the advertised login types and their
credential field names. -/
def get_supported_login_types : List (String × List String) :=
  [("org.threefold.connect", ["tf_connect_token"]),
   ("m.login.password", ["password"])]

/-- The fields `check_auth` reads from `login_dict`. -/
structure LoginDict where
  client_ip : Option String
  tf_token : Option String
  session_id : Option String
deriving DecidableEq, Repr

/-- Result of `check_auth`: `noneResult` is Python `None` (login type not
handled), `loginError code errcode` a raised `LoginError`, `success` the
returned Matrix user id. -/
inductive CheckAuthResult where
  | noneResult
  | success (user_id : String)
  | loginError (code : Nat) (errcode : String)
deriving DecidableEq, Repr

/-- Calls the orchestrator makes to its collaborators, in order. -/
inductive Event where
  | rateCheck
  | tokenVerify
  | sessionVerify
  | recordFailure
  | accountCreate (user_id : String)
  | accountUpdate (user_id : String)
  | cacheUserWrite (user_id : String)
deriving DecidableEq, Repr

/-- `TFConnectAuthProvider.check_auth`: the orchestrator. Returns the
result, the final state, and the trace of collaborator calls. The source's
final `else: raise LoginError(400, 'Invalid authentication parameters')`
after the token/session dispatch is unreachable (the missing-parameter
check already ensured one of the two is truthy) and has no branch here. -/
def check_auth (cfg : Config) (now : Int) (resp : HttpOutcome) (s : BrokerState)
    (_username : String) (login_type : String) (d : LoginDict) :
    CheckAuthResult × BrokerState × List Event :=
  if login_type ≠ "tf_connect" then (CheckAuthResult.noneResult, s, [])
  else
    let client_ip := d.client_ip.getD "unknown"
    let rl := check_rate_limit cfg now s client_ip
    if rl.1 = false then
      (CheckAuthResult.loginError 429 "M_LIMIT_EXCEEDED", rl.2, [Event.rateCheck])
    else if !(pyTruthy d.tf_token) && !(pyTruthy d.session_id) then
      (CheckAuthResult.loginError 400 "M_MISSING_PARAM", rl.2, [Event.rateCheck])
    else
      let vr : Option UserInfo × BrokerState × Event :=
        if pyTruthy d.tf_token then
          let r := verify_tf_token cfg now rl.2 (d.tf_token.getD "") resp
          (r.1, r.2, Event.tokenVerify)
        else
          let r := verify_session cfg now rl.2 (d.session_id.getD "")
          (r.1, r.2, Event.sessionVerify)
      match vr.1 with
      | none =>
        (CheckAuthResult.loginError 401 "M_FORBIDDEN",
         record_failed_attempt now vr.2.1 client_ip,
         [Event.rateCheck, vr.2.2, Event.recordFailure])
      | some user_info =>
        if is_user_allowed cfg.allowed_domains user_info = false then
          (CheckAuthResult.loginError 403 "M_FORBIDDEN", vr.2.1,
           [Event.rateCheck, vr.2.2])
        else
          let matrix_user_id := map_tf_user_to_matrix user_info cfg.server_name
          let er := ensure_user_exists vr.2.1.accounts matrix_user_id user_info
          let s3 : BrokerState := { vr.2.1 with accounts := er.1 }
          let s4 := cache_user_info cfg now s3 matrix_user_id user_info
          (CheckAuthResult.success matrix_user_id, s4,
           [Event.rateCheck, vr.2.2,
            if er.2 then Event.accountCreate matrix_user_id
            else Event.accountUpdate matrix_user_id,
            Event.cacheUserWrite matrix_user_id])

/-! ## Concrete fixtures used by witnesses and counterexamples -/

/-- A configuration with the source's default numeric values, no domain
restriction, and the spec's example server name. -/
def cfgEx : Config :=
  { session_timeout := 3600, max_login_attempts := 5, rate_limit_window := 300,
    user_cache_ttl := 1800, token_cache_ttl := 3600, allowed_domains := [],
    server_name := "example.org", digest := fun s => s }

/-- Broker state just after initialisation with the primary cache backend
unavailable: `redis_client = None` and all in-process dicts empty. -/
def emptyState : BrokerState :=
  { redis := none, pending_sessions := fun _ => none, rate_limit_cache := fun _ => none,
    user_cache := fun _ => none, accounts := fun _ => none }

/-- The spec's end-to-end example identity. -/
def uiJo : UserInfo := ⟨some "Jo.Doe", none, none, some "jo@allowed.com"⟩

/-- An identity with a double name but no email claim. -/
def uiNoEmail : UserInfo := ⟨some "Bob", none, none, none⟩

/-- An identity used in orchestrator scenarios. -/
def uiBob : UserInfo := ⟨some "Bob", none, none, some "bob@x.com"⟩

/-- State holding one pending session `s1` created at time 0 whose identity
has already been deposited by the out-of-band flow. -/
def sessionReuseState : BrokerState :=
  { emptyState with pending_sessions := fun k =>
      if k = "s1" then some ⟨some 0, some uiJo⟩ else none }

/-- Rate-limit state for client `c` holding one stale timestamp (0) and one
recent one (350), evaluated at time 400 with a 300-second window. -/
def staleRateState : BrokerState :=
  { emptyState with rate_limit_cache := fun k =>
      if k = "c" then some [0, 350] else none }

/-- Rate-limit state for client `c` holding a single recent timestamp. -/
def recentRateState : BrokerState :=
  { emptyState with rate_limit_cache := fun k =>
      if k = "c" then some [350] else none }

/-! ## Helper lemmas -/

/-- Folding `record_failed_attempt` over a non-empty list of times appends
exactly those times to the client's stored attempt list. -/
theorem foldl_record_rate (ts : List Int) (ip : String) :
    ∀ s : BrokerState, ts ≠ [] →
      (ts.foldl (fun st t => record_failed_attempt t st ip) s).rate_limit_cache ip
        = some (((s.rate_limit_cache ip).getD []) ++ ts) := by
  induction ts with
  | nil => intro s h; exact absurd rfl h
  | cons t ts ih =>
    intro s _
    cases ts with
    | nil =>
      simp [record_failed_attempt]
    | cons u us =>
      have h2 : (u :: us) ≠ [] := by simp
      have step : ((t :: u :: us).foldl (fun st t => record_failed_attempt t st ip) s)
          = (u :: us).foldl (fun st t => record_failed_attempt t st ip)
              (record_failed_attempt t s ip) := rfl
      rw [step, ih (record_failed_attempt t s ip) h2]
      simp [record_failed_attempt]

/-- When the rate limiter denies a client, `check_auth` raises the 429
`LoginError` with the pruned state and performs no other collaborator call. -/
theorem check_auth_of_rate_denied (cfg : Config) (now : Int) (resp : HttpOutcome)
    (s : BrokerState) (u : String) (d : LoginDict)
    (h : (check_rate_limit cfg now s (d.client_ip.getD "unknown")).1 = false) :
    check_auth cfg now resp s u "tf_connect" d
      = (CheckAuthResult.loginError 429 "M_LIMIT_EXCEEDED",
         (check_rate_limit cfg now s (d.client_ip.getD "unknown")).2,
         [Event.rateCheck]) := by
  unfold check_auth
  rw [if_neg (fun hc => hc rfl)]
  simp only [h, if_pos]

/-- After `_remove_session`, `_get_session` on the same id is absent at every
time, in both the Redis and the fallback tier. -/
theorem get_session_remove_self (later : Int) (s : BrokerState) (sid : String) :
    get_session later (remove_session s sid) sid = none := by
  unfold get_session remove_session
  cases hr : s.redis with
  | none => simp [hr]
  | some db => simp [hr]

/-- `takeWhile` runs through a prefix all of whose elements satisfy the
predicate and stops at the first failing element. -/
theorem takeWhile_all_append (p : Char → Bool) (xs ys : List Char) (y : Char)
    (hxs : ∀ x ∈ xs, p x = true) (hy : p y = false) :
    (xs ++ y :: ys).takeWhile p = xs := by
  induction xs with
  | nil => simp [List.takeWhile_cons, hy]
  | cons a l ih =>
    have ha := hxs a (by simp)
    simp only [List.cons_append, List.takeWhile_cons, ha, if_true]
    rw [ih (fun x hx => hxs x (by simp [hx]))]

/-! ## Claim C6 -/

/-- Claim C6, counterexample: the claim describes the account id as derived
from the subject name with a generic fallback label, but the source falls
back to the `username` claim before the generic label: on an identity whose
double name is absent and whose username is `Bob`, the source yields
`@bob:x` while the claim's described computation yields `@unknown:x`. -/
theorem account_id_fallback_counterexample :
    map_tf_user_to_matrix ⟨none, some "Bob", none, none⟩ "x"
      ≠ to_local_account_id_spec ⟨none, some "Bob", none, none⟩ "x" := by
  decide

/-- Claim C6, amended: `map_tf_user_to_matrix` is deterministic and total
and equals, on every identity and server name, the derivation that takes
the double name if present, else the username claim if present, else the
generic label `unknown`, substitutes `_` for every `.` and `@` in one pass,
lowercases, and composes the Matrix id; on the spec's example identity
`Jo.Doe` with server `example.org` it yields `@jo_doe:example.org`. -/
theorem account_id_derivation_amended :
    (∀ (user_info : UserInfo) (server_name : String),
      map_tf_user_to_matrix user_info server_name
        = to_local_account_id_amended user_info server_name) ∧
    map_tf_user_to_matrix uiJo "example.org" = "@jo_doe:example.org" := by
  constructor
  · intro user_info server_name
    unfold map_tf_user_to_matrix to_local_account_id_amended pyReplaceChar pyLower
    simp only [List.map_map]
    have hmap : ∀ l : List Char,
        l.map (Char.toLower ∘ (fun c => if c = '@' then '_' else c) ∘
            fun c => if c = '.' then '_' else c)
          = l.map (Char.toLower ∘ fun c => if c = '.' ∨ c = '@' then '_' else c) := by
      intro l
      apply List.map_congr_left
      intro c _
      by_cases h1 : c = '.'
      · subst h1; decide
      · by_cases h2 : c = '@'
        · subst h2; decide
        · simp [Function.comp, h1, h2]
    rw [hmap]
  · decide

/-! ## Claim C7 -/

/-- Claim C7: the domain gate admits every identity when the allow-list is
empty; with a non-empty allow-list it rejects identities without an email
and admits exactly those whose email is non-empty with its lowercased
after-last-`@` domain a member of the list; and on an email of the shape
`local@domain` with `@`-free domain, that computed domain is exactly the
lowercased suffix after the last `@`. -/
theorem is_user_allowed_correct (domains : List String) (user_info : UserInfo) :
    (domains = [] → is_user_allowed domains user_info = true) ∧
    (domains ≠ [] → user_info.email = none → is_user_allowed domains user_info = false) ∧
    (domains ≠ [] → ∀ e, user_info.email = some e → e ≠ "" →
      (is_user_allowed domains user_info = true ↔ emailDomain e ∈ domains)) ∧
    (∀ lpart dpart : String, '@' ∉ dpart.data →
      emailDomain (lpart ++ "@" ++ dpart) = pyLower dpart) := by
  refine ⟨?_, ?_, ?_, ?_⟩
  · intro h
    simp [is_user_allowed, h]
  · intro hne hmail
    simp [is_user_allowed, hmail, List.isEmpty_iff, hne]
  · intro hne e he hnee
    simp [is_user_allowed, he, List.isEmpty_iff, hne, hnee]
  · intro lpart dpart hd
    unfold emailDomain afterLastAt
    congr 1
    have hdata : (lpart ++ "@" ++ dpart).data = lpart.data ++ '@' :: dpart.data := by
      rw [String.data_append, String.data_append]
      simp
    rw [hdata]
    have hrev : (lpart.data ++ '@' :: dpart.data).reverse
        = dpart.data.reverse ++ '@' :: lpart.data.reverse := by
      simp
    rw [hrev, takeWhile_all_append _ _ _ _ ?all ?stop]
    · simp
    case all =>
      intro x hx
      have : x ≠ '@' := by
        intro hxe; subst hxe
        exact hd (List.mem_reverse.mp hx)
      simpa using this
    case stop => simp

/-- Claim C7, witness at concrete inputs: empty list admits `uiJo`; the
singleton list rejects the email-less identity; the membership equivalence
holds for the example email; the domain of `jo@Allowed.COM` is the
lowercased suffix. -/
theorem is_user_allowed_correct_witness :
    is_user_allowed [] uiJo = true ∧
    is_user_allowed ["allowed.com"] uiNoEmail = false ∧
    (is_user_allowed ["allowed.com"] uiJo = true ↔
      emailDomain "jo@allowed.com" ∈ ["allowed.com"]) ∧
    emailDomain ("jo" ++ "@" ++ "Allowed.COM") = pyLower "Allowed.COM" :=
  ⟨(is_user_allowed_correct [] uiJo).1 rfl,
   (is_user_allowed_correct ["allowed.com"] uiNoEmail).2.1 (by decide) rfl,
   (is_user_allowed_correct ["allowed.com"] uiJo).2.2.1 (by decide)
     "jo@allowed.com" rfl (by decide),
   (is_user_allowed_correct [] uiJo).2.2.2 "jo" "Allowed.COM" (by decide)⟩

/-! ## Claim C8 -/

/-- Claim C8: on a cache miss, the token verifier reduces a 401 response,
any other non-200 response, and a network error to an absent result; being
a total function into an option, it propagates no exception to its caller. -/
theorem verify_tf_token_fails_closed (cfg : Config) (now : Int) (s : BrokerState)
    (token : String) (hmiss : get_cached_token cfg now s token = none) :
    (∀ body, (verify_tf_token cfg now s token (HttpOutcome.ok 401 body)).1 = none) ∧
    (∀ status body, status ≠ 200 →
      (verify_tf_token cfg now s token (HttpOutcome.ok status body)).1 = none) ∧
    (verify_tf_token cfg now s token HttpOutcome.netError).1 = none := by
  refine ⟨fun body => ?_, fun status body hst => ?_, ?_⟩
  · simp [verify_tf_token, hmiss]
  · simp [verify_tf_token, hmiss, hst]
  · simp [verify_tf_token, hmiss]

/-- Claim C8, witness: with the primary cache down (so every token lookup
misses), a 401, a 503, and a network error all verify to absent. -/
theorem verify_tf_token_fails_closed_witness :
    (verify_tf_token cfgEx 0 emptyState "tok" (HttpOutcome.ok 401 none)).1 = none ∧
    (verify_tf_token cfgEx 0 emptyState "tok" (HttpOutcome.ok 503 none)).1 = none ∧
    (verify_tf_token cfgEx 0 emptyState "tok" HttpOutcome.netError).1 = none :=
  ⟨(verify_tf_token_fails_closed cfgEx 0 emptyState "tok" rfl).1 none,
   (verify_tf_token_fails_closed cfgEx 0 emptyState "tok" rfl).2.1 503 none (by decide),
   (verify_tf_token_fails_closed cfgEx 0 emptyState "tok" rfl).2.2⟩

/-! ## Claim C9 -/

/-- Claim C9: provisioning is idempotent. Starting from a store without the
account, the first `ensure` call creates it (passwordless, display name and
emails from the identity), the second call creates nothing and only
rewrites the display name to the same value, and no other key changes. -/
theorem ensure_user_exists_idempotent (accounts : String → Option Account)
    (user_id : String) (user_info : UserInfo) (h : accounts user_id = none) :
    (ensure_user_exists accounts user_id user_info).2 = true ∧
    (ensure_user_exists (ensure_user_exists accounts user_id user_info).1 user_id user_info).2
      = false ∧
    (ensure_user_exists (ensure_user_exists accounts user_id user_info).1 user_id user_info).1
        user_id
      = some ⟨localpartOf user_id, displaynameOf user_info, emailsOf user_info, false⟩ ∧
    (∀ k, k ≠ user_id →
      (ensure_user_exists (ensure_user_exists accounts user_id user_info).1 user_id user_info).1
          k
        = accounts k) := by
  refine ⟨?_, ?_, ?_, ?_⟩
  · simp [ensure_user_exists, h]
  · simp [ensure_user_exists, h]
  · simp [ensure_user_exists, h]
  · intro k hk
    simp [ensure_user_exists, h, hk]

/-- Claim C9, witness: on the empty account store, ensuring
`@jo_doe:example.org` twice creates once, then only updates. -/
theorem ensure_user_exists_idempotent_witness :
    (ensure_user_exists (fun _ => none) "@jo_doe:example.org" uiJo).2 = true ∧
    (ensure_user_exists
        (ensure_user_exists (fun _ => none) "@jo_doe:example.org" uiJo).1
        "@jo_doe:example.org" uiJo).2 = false :=
  ⟨(ensure_user_exists_idempotent (fun _ => none) "@jo_doe:example.org" uiJo rfl).1,
   (ensure_user_exists_idempotent (fun _ => none) "@jo_doe:example.org" uiJo rfl).2.1⟩

/-! ## Claim C2 -/

/-- Claim C2, counterexample: with session `s1` holding a deposited
identity, a first verification at time 10 succeeds, yet a second
verification still succeeds with the same identity instead of finding the
record absent — the source never deletes a session on successful
consumption, only on expiry. -/
theorem verify_session_reuse_counterexample :
    (verify_session cfgEx 10 sessionReuseState "s1").1 = some uiJo ∧
    (verify_session cfgEx 10
        (verify_session cfgEx 10 sessionReuseState "s1").2 "s1").1 = some uiJo := by
  decide

/-- Claim C2, amended: a successful session verification leaves the state
unchanged, so re-verifying yields the same identity again (no at-most-once
use on success); a session consulted after its timeout is deleted and
yields absent, and is absent at every later consultation. -/
theorem verify_session_at_most_once_amended :
    (∀ (cfg : Config) (now : Int) (s : BrokerState) (sid : String) (ui : UserInfo),
      (verify_session cfg now s sid).1 = some ui →
        (verify_session cfg now s sid).2 = s ∧
        (verify_session cfg now (verify_session cfg now s sid).2 sid).1 = some ui) ∧
    (∀ (cfg : Config) (now : Int) (s : BrokerState) (sid : String) (sd : SessionData),
      get_session now s sid = some sd →
      cfg.session_timeout < now - sd.created_at.getD 0 →
        (verify_session cfg now s sid).1 = none ∧
        ∀ later : Int, get_session later (verify_session cfg now s sid).2 sid = none) := by
  constructor
  · intro cfg now s sid ui h
    have hv : verify_session cfg now s sid = (some ui, s) := by
      unfold verify_session at h ⊢
      split at h
      · simp at h
      · rename_i sd _
        split at h
        · simp at h
        · rename_i hexp
          simp only at h
          rw [h, if_neg hexp]
    have h2 : (verify_session cfg now s sid).2 = s := by rw [hv]
    refine ⟨h2, ?_⟩
    rw [h2, hv]
  · intro cfg now s sid sd hg hexp
    have hv : verify_session cfg now s sid = (none, remove_session s sid) := by
      unfold verify_session
      simp only [hg]
      rw [if_pos hexp]
    have h2 : (verify_session cfg now s sid).2 = remove_session s sid := by rw [hv]
    refine ⟨by rw [hv], fun later => ?_⟩
    rw [h2]
    exact get_session_remove_self later s sid

/-- Claim C2, witness: a concrete successful re-read at time 10, and a
concrete expired consultation at time 5000 which deletes the record so
that a read at time 6000 finds it absent. -/
theorem verify_session_at_most_once_amended_witness :
    ((verify_session cfgEx 10 sessionReuseState "s1").2 = sessionReuseState) ∧
    ((verify_session cfgEx 5000 sessionReuseState "s1").1 = none) ∧
    (get_session 6000 (verify_session cfgEx 5000 sessionReuseState "s1").2 "s1" = none) :=
  ⟨(verify_session_at_most_once_amended.1 cfgEx 10 sessionReuseState "s1" uiJo
      (by decide)).1,
   (verify_session_at_most_once_amended.2 cfgEx 5000 sessionReuseState "s1"
      ⟨some 0, some uiJo⟩ (by decide) (by decide)).1,
   (verify_session_at_most_once_amended.2 cfgEx 5000 sessionReuseState "s1"
      ⟨some 0, some uiJo⟩ (by decide) (by decide)).2 6000⟩

/-! ## Claim C4 -/

/-- Claim C4, counterexample: client `c` has attempts at times 0 and 350;
an `allow` evaluation at time 400 with a 300-second window keeps the whole
entry (its last timestamp is recent), so the stored window still contains
the timestamp 0, which is older than the window relative to time 400. -/
theorem rate_window_prune_counterexample :
    (check_rate_limit cfgEx 400 staleRateState "c").2.rate_limit_cache "c"
      = some [0, 350] ∧
    ¬ ((400 : Int) - 0 < cfgEx.rate_limit_window) := by
  constructor
  · decide
  · decide

/-- Claim C4, amended: after an `allow` evaluation, every client entry still
stored has its most recent (last) timestamp within `rate_limit_window` of
the evaluation time; older timestamps inside such an entry are only
excluded from the count, not removed from storage. -/
theorem rate_window_prune_amended (cfg : Config) (now : Int) (s : BrokerState)
    (client_ip k : String) (atts : List Int)
    (h : (check_rate_limit cfg now s client_ip).2.rate_limit_cache k = some atts) :
    ∃ t, atts.getLast? = some t ∧ now - t < cfg.rate_limit_window := by
  unfold check_rate_limit at h
  simp only at h
  split at h
  · rename_i l hsk
    split at h
    · rename_i t hl
      split at h
      · rename_i hc
        injection h with h2
        subst h2
        exact ⟨t, hl, hc⟩
      · cases h
    · cases h
  · cases h

/-- Claim C4, witness: the entry kept for client `c` at time 400 has last
timestamp 350, within the 300-second window. -/
theorem rate_window_prune_amended_witness :
    ∃ t, ([350] : List Int).getLast? = some t ∧ (400 : Int) - t < cfgEx.rate_limit_window :=
  rate_window_prune_amended cfgEx 400 recentRateState "c" "c" [350] (by decide)

/-! ## Claim C5 -/

/-- Claim C5, counterexample: with the primary backend down
(`emptyState.redis = none`), a token-namespace write followed by an
immediate read returns absent, not the stored identity — the source's
token cache has no in-process fallback. -/
theorem token_fallback_counterexample :
    emptyState.redis = none ∧
    get_cached_token cfgEx 0 (cache_token cfgEx 0 emptyState "tok" uiJo) "tok" = none :=
  ⟨rfl, by decide⟩

/-- Claim C5, amended: with the primary backend unavailable, the token
namespace does not fall back (writes are no-ops and reads are absent),
while the user namespace write and the session namespace read and delete
do fall back to the in-process maps; no TTL check guards the fallback
reads. -/
theorem cache_fallback_amended (cfg : Config) (now : Int) (s : BrokerState)
    (token user_id session_id : String) (user_info : UserInfo)
    (h : s.redis = none) :
    cache_token cfg now s token user_info = s ∧
    get_cached_token cfg now s token = none ∧
    (cache_user_info cfg now s user_id user_info).user_cache user_id
      = some ⟨user_info, now⟩ ∧
    get_session now s session_id = s.pending_sessions session_id ∧
    (remove_session s session_id).pending_sessions session_id = none := by
  refine ⟨?_, ?_, ?_, ?_, ?_⟩
  · simp [cache_token, h]
  · simp [get_cached_token, h]
  · simp [cache_user_info, h]
  · simp [get_session, h]
  · simp [remove_session, h]

/-- Claim C5, witness: the amended behaviour at the concrete
redis-unavailable state. -/
theorem cache_fallback_amended_witness :
    cache_token cfgEx 7 emptyState "tok" uiJo = emptyState ∧
    get_cached_token cfgEx 7 emptyState "tok" = none ∧
    (cache_user_info cfgEx 7 emptyState "@jo_doe:example.org" uiJo).user_cache
        "@jo_doe:example.org" = some ⟨uiJo, 7⟩ ∧
    get_session 7 emptyState "s1" = emptyState.pending_sessions "s1" ∧
    (remove_session emptyState "s1").pending_sessions "s1" = none :=
  cache_fallback_amended cfgEx 7 emptyState "tok" "@jo_doe:example.org" "s1" uiJo rfl

/-- When a client's stored attempt list survives pruning (its last entry is
recent) and holds at least `max_login_attempts` recent entries, the rate
limiter denies the attempt. -/
theorem check_rate_limit_denies (cfg : Config) (now : Int) (s : BrokerState) (ip : String)
    (atts : List Int) (hstore : s.rate_limit_cache ip = some atts)
    (hlast : ∃ t, atts.getLast? = some t ∧ now - t < cfg.rate_limit_window)
    (hcount : cfg.max_login_attempts
      ≤ (atts.filter (fun t => now - t < cfg.rate_limit_window)).length) :
    (check_rate_limit cfg now s ip).1 = false := by
  obtain ⟨t, hl, hc⟩ := hlast
  unfold check_rate_limit
  simp only [hstore, hl, if_pos hc, Option.getD_some]
  exact decide_eq_false (by omega)

/-! ## Claim C3 -/

/-- Claim C3: after at least `max_login_attempts` failed verifications have
been recorded for a client at times within `rate_limit_window` of now, the
immediately following `check_auth` attempt from that client raises the 429
rate-limit `LoginError`, and the trace is the rate check alone — neither
verifier is invoked, so the rate check runs before any verification work. -/
theorem checkAuth_rate_limited (cfg : Config) (now : Int) (resp : HttpOutcome)
    (s : BrokerState) (u : String) (d : LoginDict) (ts : List Int)
    (hts : ∀ t ∈ ts, now - t < cfg.rate_limit_window)
    (hlen : cfg.max_login_attempts ≤ ts.length)
    (hne : ts ≠ []) :
    check_auth cfg now resp
        (ts.foldl (fun st t => record_failed_attempt t st (d.client_ip.getD "unknown")) s)
        u "tf_connect" d
      = (CheckAuthResult.loginError 429 "M_LIMIT_EXCEEDED",
         (check_rate_limit cfg now
            (ts.foldl (fun st t => record_failed_attempt t st (d.client_ip.getD "unknown")) s)
            (d.client_ip.getD "unknown")).2,
         [Event.rateCheck]) := by
  have hstore := foldl_record_rate ts (d.client_ip.getD "unknown") s hne
  apply check_auth_of_rate_denied
  apply check_rate_limit_denies _ _ _ _ _ hstore
  · refine ⟨ts.getLast hne, ?_, hts _ (List.getLast_mem hne)⟩
    rw [List.getLast?_append_of_ne_nil _ hne]
    exact List.getLast?_eq_getLast_of_ne_nil hne
  · rw [List.filter_append]
    have hfil : ts.filter (fun t => now - t < cfg.rate_limit_window) = ts :=
      List.filter_eq_self.mpr (fun a ha => by simpa using hts a ha)
    rw [hfil, List.length_append]
    omega

/-- Claim C3, witness: five failures at times 1..5 within a 300-second
window; the attempt at time 6 is rejected with 429 and a rate-check-only
trace. -/
theorem checkAuth_rate_limited_witness :
    check_auth cfgEx 6 HttpOutcome.netError
        (([1, 2, 3, 4, 5] : List Int).foldl
          (fun st t => record_failed_attempt t st
            ((LoginDict.mk (some "9.9.9.9") (some "tok1") none).client_ip.getD "unknown"))
          emptyState)
        "u" "tf_connect" (LoginDict.mk (some "9.9.9.9") (some "tok1") none)
      = (CheckAuthResult.loginError 429 "M_LIMIT_EXCEEDED",
         (check_rate_limit cfgEx 6
            (([1, 2, 3, 4, 5] : List Int).foldl
              (fun st t => record_failed_attempt t st
                ((LoginDict.mk (some "9.9.9.9") (some "tok1") none).client_ip.getD "unknown"))
              emptyState)
            ((LoginDict.mk (some "9.9.9.9") (some "tok1") none).client_ip.getD "unknown")).2,
         [Event.rateCheck]) :=
  checkAuth_rate_limited cfgEx 6 HttpOutcome.netError emptyState "u"
    (LoginDict.mk (some "9.9.9.9") (some "tok1") none) [1, 2, 3, 4, 5]
    (by decide) (by decide) (by decide)

/-! ## Claim C1 -/

/-- Claim C1, counterexample: a call with BOTH `tf_token` and `session_id`
present does not fail with the 400 missing-parameter error as the claim
requires — the source only rejects when neither is present, and with both
present it runs the token verifier and here succeeds. -/
theorem checkAuth_both_params_counterexample :
    (check_auth cfgEx 100 (HttpOutcome.ok 200 (some uiBob)) emptyState "u" "tf_connect"
        ⟨some "9.9.9.9", some "tok1", some "sess1"⟩).1
      = CheckAuthResult.success "@bob:example.org" ∧
    Event.tokenVerify ∈ (check_auth cfgEx 100 (HttpOutcome.ok 200 (some uiBob)) emptyState
        "u" "tf_connect" ⟨some "9.9.9.9", some "tok1", some "sess1"⟩).2.2 := by
  constructor
  · decide
  · decide

/-- Claim C1, amended: when the rate check passes, a `tf_connect` call with
neither a truthy `tf_token` nor a truthy `session_id` raises the 400
missing-parameter `LoginError` with no verifier invoked; when a truthy
`tf_token` is present (in particular when both fields are present), the
direct-token verifier is the second collaborator called instead of any
failure at this step. -/
theorem checkAuth_missing_param (cfg : Config) (now : Int) (resp : HttpOutcome)
    (s : BrokerState) (u : String) (d : LoginDict)
    (hallow : (check_rate_limit cfg now s (d.client_ip.getD "unknown")).1 = true) :
    (pyTruthy d.tf_token = false → pyTruthy d.session_id = false →
      check_auth cfg now resp s u "tf_connect" d
        = (CheckAuthResult.loginError 400 "M_MISSING_PARAM",
           (check_rate_limit cfg now s (d.client_ip.getD "unknown")).2,
           [Event.rateCheck])) ∧
    (pyTruthy d.tf_token = true →
      ((check_auth cfg now resp s u "tf_connect" d).2.2)[1]? = some Event.tokenVerify) := by
  constructor
  · intro h1 h2
    unfold check_auth
    rw [if_neg (fun hc => hc rfl)]
    simp [hallow, h1, h2]
  · intro h1
    unfold check_auth
    rw [if_neg (fun hc => hc rfl)]
    simp only [hallow, h1, Bool.not_true, Bool.false_and, Bool.true_eq_false,
      if_false, if_true, Bool.false_eq_true, ite_false, ite_true]
    split
    · rfl
    · split
      · rfl
      · rfl

/-- Claim C1, witness: with an empty rate window, a call with neither
credential yields 400 and a rate-check-only trace, and a call with both
credentials calls the token verifier second. -/
theorem checkAuth_missing_param_witness :
    (check_auth cfgEx 0 HttpOutcome.netError emptyState "u" "tf_connect"
        ⟨some "1.1.1.1", none, none⟩
      = (CheckAuthResult.loginError 400 "M_MISSING_PARAM",
         (check_rate_limit cfgEx 0 emptyState
           ((LoginDict.mk (some "1.1.1.1") none none).client_ip.getD "unknown")).2,
         [Event.rateCheck])) ∧
    ((check_auth cfgEx 0 HttpOutcome.netError emptyState "u" "tf_connect"
        ⟨some "1.1.1.1", some "tok1", some "sess1"⟩).2.2)[1]?
      = some Event.tokenVerify :=
  ⟨(checkAuth_missing_param cfgEx 0 HttpOutcome.netError emptyState "u"
      ⟨some "1.1.1.1", none, none⟩ (by decide)).1 (by decide) (by decide),
   (checkAuth_missing_param cfgEx 0 HttpOutcome.netError emptyState "u"
      ⟨some "1.1.1.1", some "tok1", some "sess1"⟩ (by decide)).2 (by decide)⟩

/-! ## Claim C10 -/

/-- Claim C10: a `check_auth` call whose login type differs from the
literal `tf_connect` — in particular `org.threefold.connect`, which is
among the advertised login types — returns Python `None` with the state
untouched and an empty trace: no rate-limit check or recording, no
verifier call, and no account operation. -/
theorem checkAuth_other_login_type (cfg : Config) (now : Int) (resp : HttpOutcome)
    (s : BrokerState) (u login_type : String) (d : LoginDict)
    (h : login_type ≠ "tf_connect") :
    check_auth cfg now resp s u login_type d = (CheckAuthResult.noneResult, s, []) ∧
    "org.threefold.connect" ∈ get_supported_login_types.map Prod.fst := by
  refine ⟨?_, by simp [get_supported_login_types]⟩
  unfold check_auth
  rw [if_pos h]

/-- Claim C10, witness: the advertised type `org.threefold.connect` itself
is not handled by `check_auth`. -/
theorem checkAuth_other_login_type_witness :
    check_auth cfgEx 0 HttpOutcome.netError emptyState "alice" "org.threefold.connect"
        ⟨some "1.1.1.1", some "tok1", none⟩
      = (CheckAuthResult.noneResult, emptyState, []) ∧
    "org.threefold.connect" ∈ get_supported_login_types.map Prod.fst :=
  checkAuth_other_login_type cfgEx 0 HttpOutcome.netError emptyState "alice"
    "org.threefold.connect" ⟨some "1.1.1.1", some "tok1", none⟩ (by decide)
